import Mathlib

/-!
Verification of the 4D geometric-algebra core of TesseractGame.

The Rust source (`src/math/rotor.rs`, `src/math/point.rs`) implements the
even subalgebra of the Clifford algebra over basis `{e0,e1,e2,e3,e4}` with
`e0² = 0` and `e1² = e2² = e3² = e4² = 1`.  We embed the `f32` arithmetic
shallowly over an arbitrary field `α` (instantiated at `ℚ` for concrete
evaluation and at `ℝ` for the stated theorems), translating each Rust
function term by term.
-/

set_option maxHeartbeats 2000000

namespace Tesseract

/-- A 4-component vector, embedding the Rust `[f32; 4]` arrays used for
points, offsets, and directions (components `[x, y, z, w]`). -/
@[ext]
structure Vec4 (α : Type) where
  x : α
  y : α
  z : α
  w : α
deriving DecidableEq, Repr

/-- The 16-component even multivector, embedding `struct Rotor` from
`src/math/rotor.rs` (the spec's "Motor"): scalar `s`, ten grade-2 fields,
five grade-4 fields. -/
@[ext]
structure Rotor (α : Type) where
  s : α
  e01 : α
  e02 : α
  e03 : α
  e04 : α
  e12 : α
  e13 : α
  e14 : α
  e23 : α
  e24 : α
  e34 : α
  e0123 : α
  e0124 : α
  e0134 : α
  e0234 : α
  e1234 : α
deriving DecidableEq, Repr

namespace Rotor

variable {α : Type} [Field α]

/-- Embeds `Rotor::IDENTITY`: `s = 1`, all other 15 fields `0`. -/
def IDENTITY : Rotor α :=
  { s := 1, e01 := 0, e02 := 0, e03 := 0, e04 := 0,
    e12 := 0, e13 := 0, e14 := 0, e23 := 0, e24 := 0, e34 := 0,
    e0123 := 0, e0124 := 0, e0134 := 0, e0234 := 0, e1234 := 0 }

/-- Embeds `Rotor::translation(offset: [f32; 4])`. -/
def translation (offset : Vec4 α) : Rotor α :=
  { s := 1,
    e01 := offset.w * (1/2),
    e02 := offset.z * -(1/2),
    e03 := offset.y * (1/2),
    e04 := offset.x * -(1/2),
    e12 := 0, e13 := 0, e14 := 0, e23 := 0, e24 := 0, e34 := 0,
    e0123 := 0, e0124 := 0, e0134 := 0, e0234 := 0, e1234 := 0 }

/-- Embeds `impl Not for Rotor` (the spec's `reverse`): negates the ten
grade-2 fields, keeps the scalar and the five grade-4 fields. -/
def reverse (r : Rotor α) : Rotor α :=
  { s := r.s,
    e01 := -r.e01, e02 := -r.e02, e03 := -r.e03, e04 := -r.e04,
    e12 := -r.e12, e13 := -r.e13, e14 := -r.e14,
    e23 := -r.e23, e24 := -r.e24, e34 := -r.e34,
    e0123 := r.e0123, e0124 := r.e0124, e0134 := r.e0134,
    e0234 := r.e0234, e1234 := r.e1234 }

/-- Embeds `impl Mul<Rotor> for Rotor` (the spec's `compose`): the full
256-term geometric product, transcribed term by term from the source. -/
def mul (x y : Rotor α) : Rotor α :=
  let a1 := x.s
  let b1 := x.e01
  let c1 := x.e02
  let d1 := x.e03
  let f1 := x.e04
  let g1 := x.e12
  let h1 := x.e13
  let i1 := x.e14
  let j1 := x.e23
  let k1 := x.e24
  let l1 := x.e34
  let m1 := x.e0123
  let n1 := x.e0124
  let o1 := x.e0134
  let p1 := x.e0234
  let q1 := x.e1234
  let a2 := y.s
  let b2 := y.e01
  let c2 := y.e02
  let d2 := y.e03
  let f2 := y.e04
  let g2 := y.e12
  let h2 := y.e13
  let i2 := y.e14
  let j2 := y.e23
  let k2 := y.e24
  let l2 := y.e34
  let m2 := y.e0123
  let n2 := y.e0124
  let o2 := y.e0134
  let p2 := y.e0234
  let q2 := y.e1234
  { s := -g1 * g2 + -h1 * h2 + -i1 * i2 + -j1 * j2 + -k1 * k2 + -l1 * l2 + a1 * a2 + q1 * q2,
    e01 := -c1 * g2 + -d1 * h2 + -f1 * i2 + -j1 * m2 + -j2 * m1 + -k1 * n2 + -k2 * n1
      + -l1 * o2 + -l2 * o1 + -p2 * q1 + a1 * b2 + a2 * b1 + c2 * g1 + d2 * h1 + f2 * i1
      + p1 * q2,
    e02 := -b2 * g1 + -d1 * j2 + -f1 * k2 + -l1 * p2 + -l2 * p1 + -o1 * q2 + a1 * c2
      + a2 * c1 + b1 * g2 + d2 * j1 + f2 * k1 + h1 * m2 + h2 * m1 + i1 * n2 + i2 * n1
      + o2 * q1,
    e03 := -b2 * h1 + -c2 * j1 + -f1 * l2 + -g1 * m2 + -g2 * m1 + -n2 * q1 + a1 * d2
      + a2 * d1 + b1 * h2 + c1 * j2 + f2 * l1 + i1 * o2 + i2 * o1 + k1 * p2 + k2 * p1
      + n1 * q2,
    e04 := -b2 * i1 + -c2 * k1 + -d2 * l1 + -g1 * n2 + -g2 * n1 + -h1 * o2 + -h2 * o1
      + -j1 * p2 + -j2 * p1 + -m1 * q2 + a1 * f2 + a2 * f1 + b1 * i2 + c1 * k2 + d1 * l2
      + m2 * q1,
    e12 := -h1 * j2 + -i1 * k2 + -l1 * q2 + -l2 * q1 + a1 * g2 + a2 * g1 + h2 * j1 + i2 * k1,
    e13 := -g2 * j1 + -i1 * l2 + a1 * h2 + a2 * h1 + g1 * j2 + i2 * l1 + k1 * q2 + k2 * q1,
    e14 := -g2 * k1 + -h2 * l1 + -j1 * q2 + -j2 * q1 + a1 * i2 + a2 * i1 + g1 * k2 + h1 * l2,
    e23 := -g1 * h2 + -i1 * q2 + -i2 * q1 + -k1 * l2 + a1 * j2 + a2 * j1 + g2 * h1 + k2 * l1,
    e24 := -g1 * i2 + -j2 * l1 + a1 * k2 + a2 * k1 + g2 * i1 + h1 * q2 + h2 * q1 + j1 * l2,
    e34 := -g1 * q2 + -g2 * q1 + -h1 * i2 + -j1 * k2 + a1 * l2 + a2 * l1 + h2 * i1 + j2 * k1,
    e0123 := -c1 * h2 + -c2 * h1 + -f1 * q2 + -i2 * p1 + -k1 * o2 + -l2 * n1 + a1 * m2
      + a2 * m1 + b1 * j2 + b2 * j1 + d1 * g2 + d2 * g1 + f2 * q1 + i1 * p2 + k2 * o1
      + l1 * n2,
    e0124 := -c1 * i2 + -c2 * i1 + -d2 * q1 + -h1 * p2 + -j2 * o1 + -l1 * m2 + a1 * n2
      + a2 * n1 + b1 * k2 + b2 * k1 + d1 * q2 + f1 * g2 + f2 * g1 + h2 * p1 + j1 * o2
      + l2 * m1,
    e0134 := -c1 * q2 + -d1 * i2 + -d2 * i1 + -g2 * p1 + -j1 * n2 + -k2 * m1 + a1 * o2
      + a2 * o1 + b1 * l2 + b2 * l1 + c2 * q1 + f1 * h2 + f2 * h1 + g1 * p2 + j2 * n1
      + k1 * m2,
    e0234 := -b2 * q1 + -d1 * k2 + -d2 * k1 + -g1 * o2 + -h2 * n1 + -i1 * m2 + a1 * p2
      + a2 * p1 + b1 * q2 + c1 * l2 + c2 * l1 + f1 * j2 + f2 * j1 + g2 * o1 + h1 * n2
      + i2 * m1,
    e1234 := -h1 * k2 + -h2 * k1 + a1 * q2 + a2 * q1 + g1 * l2 + g2 * l1 + i1 * j2 + i2 * j1 }

/-- Embeds `Rotor::magnitude_squared`: the scalar part of `(!self * self)`. -/
def magnitude_squared (r : Rotor α) : α :=
  (mul (reverse r) r).s

/-- Embeds `Rotor::transform(point: [f32; 4])`: the sandwich transform of a
homogeneous point with implicit unit weight, transcribed with the source's
intermediate bindings. -/
def transform (r : Rotor α) (point : Vec4 α) : Vec4 α :=
  let a := r.s
  let b := r.e01
  let c := r.e02
  let d := r.e03
  let f := r.e04
  let g := r.e12
  let h := r.e13
  let i := r.e14
  let j := r.e23
  let k := r.e24
  let l := r.e34
  let m := r.e0123
  let n := r.e0124
  let o := r.e0134
  let p := r.e0234
  let q := r.e1234
  let p0 := point.x
  let p1 := point.y
  let p2 := point.z
  let p3 := point.w
  let ap2 := a * p2
  let gp3 := g * p3
  let jp1 := j * p1
  let kp0 := k * p0
  let ap3 := a * p3
  let gp2 := g * p2
  let hp1 := h * p1
  let ip0 := i * p0
  let ap1 := a * p1
  let lp0 := l * p0
  let hp3 := h * p3
  let jp2 := j * p2
  let ap0 := a * p0
  let lp1 := l * p1
  let ip3 := i * p3
  let kp2 := k * p2
  let s0 := c + jp1 - ap2 - gp3 - kp0
  let s1 := ap3 + b + hp1 - gp2 - ip0
  let s2 := ap1 + d + jp2 - lp0 - hp3
  let s3 := f + kp2 - ap0 - lp1 - ip3
  { x := p0 + 2 * (q * (m + g * p1 + h * p2 + j * p3 - q * p0) + k * s0 + i * s1 + l * s2
      - a * f - n * g - o * h - p * j),
    y := p1 + 2 * (a * d + m * g + q * (n + i * p2 + k * p3 - q * p1 - g * p0) + l * s3
      - o * i - p * k - j * s0 - h * s1),
    z := p2 + 2 * (m * h + n * i + q * (l * p3 + o - q * p2 - h * p0 - i * p1) + g * s1
      - a * c - l * p - k * s3 - j * s2),
    w := p3 + 2 * (a * b + l * o + m * j + n * k + q * (p - l * p2 - q * p3 - j * p0 - k * p1)
      + i * s3 + h * s2 + g * s0) }

/-- Embeds `Rotor::transform_direction(normal: [f32; 4])`: the rotational
sandwich transform; the source binds only `s`, `e12..e34` and `e1234`, the
eight translation-bearing fields are discarded by the destructuring. -/
def transform_direction (r : Rotor α) (normal : Vec4 α) : Vec4 α :=
  let a := r.s
  let f := r.e12
  let g := r.e13
  let h := r.e14
  let i := r.e23
  let j := r.e24
  let k := r.e34
  let p := r.e1234
  let p0 := normal.x
  let p1 := normal.y
  let p2 := normal.z
  let p3 := normal.w
  let ap2 := a * p2
  let fp3 := f * p3
  let ip1 := i * p1
  let jp0 := j * p0
  let ap3 := a * p3
  let fp2 := f * p2
  let gp1 := g * p1
  let hp0 := h * p0
  let ap1 := a * p1
  let kp0 := k * p0
  let gp3 := g * p3
  let ip2 := i * p2
  let ap0 := a * p0
  let kp1 := k * p1
  let hp3 := h * p3
  let jp2 := j * p2
  let s0 := ip1 - ap2 - fp3 - jp0
  let s1 := ap3 + gp1 - fp2 - hp0
  let s2 := ap1 + ip2 - kp0 - gp3
  let s3 := jp2 - ap0 - kp1 - hp3
  { x := p0 + 2 * (p * (f * p1 + g * p2 + i * p3 - p * p0) + j * s0 + h * s1 + k * s2),
    y := p1 + 2 * (p * (h * p2 + j * p3 - p * p1 - f * p0) + k * s3 - i * s0 - g * s1),
    z := p2 + 2 * (p * (k * p3 - p * p2 - g * p0 - h * p1) + f * s1 - j * s3 - i * s2),
    w := p3 + 2 * (h * s3 + g * s2 + f * s0 - p * (k * p2 + p * p3 + i * p0 + j * p1)) }

/-- Embeds `Rotor::rotation_xy(angle: f32)`: pure rotation in the `e1e2`
plane with the half-angle convention, `s = cos(angle/2)`, `e12 = sin(angle/2)`. -/
noncomputable def rotation_xy (angle : ℝ) : Rotor ℝ :=
  { s := Real.cos (angle * (1/2)),
    e01 := 0, e02 := 0, e03 := 0, e04 := 0,
    e12 := Real.sin (angle * (1/2)),
    e13 := 0, e14 := 0, e23 := 0, e24 := 0, e34 := 0,
    e0123 := 0, e0124 := 0, e0134 := 0, e0234 := 0, e1234 := 0 }

/-- Modelled from the spec: `Rotor::rotation_xz` is called from
`src/game.rs` but its definition is absent from the sources; §4.4 specifies
a pure rotation in plane `13` with `s = cos(angle/2)`, `e13 = sin(angle/2)`,
all else `0`. -/
noncomputable def rotation_xz (angle : ℝ) : Rotor ℝ :=
  { s := Real.cos (angle * (1/2)),
    e01 := 0, e02 := 0, e03 := 0, e04 := 0, e12 := 0,
    e13 := Real.sin (angle * (1/2)),
    e14 := 0, e23 := 0, e24 := 0, e34 := 0,
    e0123 := 0, e0124 := 0, e0134 := 0, e0234 := 0, e1234 := 0 }

/-- Modelled from the spec: `Rotor::rotation_xw` is called from
`src/game.rs` but its definition is absent from the sources; §4.4 specifies
a pure rotation in plane `14` with `s = cos(angle/2)`, `e14 = sin(angle/2)`,
all else `0`. -/
noncomputable def rotation_xw (angle : ℝ) : Rotor ℝ :=
  { s := Real.cos (angle * (1/2)),
    e01 := 0, e02 := 0, e03 := 0, e04 := 0, e12 := 0, e13 := 0,
    e14 := Real.sin (angle * (1/2)),
    e23 := 0, e24 := 0, e34 := 0,
    e0123 := 0, e0124 := 0, e0134 := 0, e0234 := 0, e1234 := 0 }

/-- Modelled from the spec: a `rotation_in_plane` constructor for plane `23`
is absent from the sources; §4.4 specifies `s = cos(angle/2)`,
`e23 = sin(angle/2)`, all else `0`. -/
noncomputable def rotation_yz (angle : ℝ) : Rotor ℝ :=
  { s := Real.cos (angle * (1/2)),
    e01 := 0, e02 := 0, e03 := 0, e04 := 0, e12 := 0, e13 := 0, e14 := 0,
    e23 := Real.sin (angle * (1/2)),
    e24 := 0, e34 := 0,
    e0123 := 0, e0124 := 0, e0134 := 0, e0234 := 0, e1234 := 0 }

/-- Modelled from the spec: a `rotation_in_plane` constructor for plane `24`
is absent from the sources; §4.4 specifies `s = cos(angle/2)`,
`e24 = sin(angle/2)`, all else `0`. -/
noncomputable def rotation_yw (angle : ℝ) : Rotor ℝ :=
  { s := Real.cos (angle * (1/2)),
    e01 := 0, e02 := 0, e03 := 0, e04 := 0, e12 := 0, e13 := 0, e14 := 0, e23 := 0,
    e24 := Real.sin (angle * (1/2)),
    e34 := 0,
    e0123 := 0, e0124 := 0, e0134 := 0, e0234 := 0, e1234 := 0 }

/-- Modelled from the spec: a `rotation_in_plane` constructor for plane `34`
is absent from the sources; §4.4 specifies `s = cos(angle/2)`,
`e34 = sin(angle/2)`, all else `0`. -/
noncomputable def rotation_zw (angle : ℝ) : Rotor ℝ :=
  { s := Real.cos (angle * (1/2)),
    e01 := 0, e02 := 0, e03 := 0, e04 := 0, e12 := 0, e13 := 0, e14 := 0, e23 := 0,
    e24 := 0,
    e34 := Real.sin (angle * (1/2)),
    e0123 := 0, e0124 := 0, e0134 := 0, e0234 := 0, e1234 := 0 }

end Rotor

/-- The 5-component dual point, embedding `struct Point` from
`src/math/point.rs`. -/
@[ext]
structure Point (α : Type) where
  e0123 : α
  e0124 : α
  e0134 : α
  e0234 : α
  e1234 : α
deriving DecidableEq, Repr

namespace Point

variable {α : Type} [Field α]

/-- Embeds `Point::IDENTITY`: the origin with homogeneous weight `1`. -/
def IDENTITY : Point α :=
  { e0123 := 0, e0124 := 0, e0134 := 0, e0234 := 0, e1234 := 1 }

/-- Embeds `Point::from_cartesian`. -/
def from_cartesian (x y z w : α) : Point α :=
  { e0123 := x, e0124 := y, e0134 := z, e0234 := w, e1234 := 1 }

/-- Embeds `Point::transform`, whose body is `todo!()`: the call panics
before producing any `Point`, which the shallow embedding renders as a
fallible operation that always returns `none`. -/
def transform (_self : Point α) (_rotor : Rotor α) : Option (Point α) :=
  none

end Point

end Tesseract

namespace Tesseract

open Rotor

/-- Claim C1: for every Motor `a`, `compose(a, IDENTITY) = a` and
`compose(IDENTITY, a) = a` with component-wise exact equality. -/
theorem mul_identity_laws (a : Rotor ℝ) :
    Rotor.mul a Rotor.IDENTITY = a ∧ Rotor.mul Rotor.IDENTITY a = a := by
  constructor <;> (ext <;> (simp only [Rotor.mul, Rotor.IDENTITY]; ring))

/-- Claim C2: composition is associative, exactly, over exact (real)
arithmetic on the 16 fields. -/
theorem mul_assoc_exact (a b c : Rotor ℝ) :
    Rotor.mul (Rotor.mul a b) c = Rotor.mul a (Rotor.mul b c) := by
  ext <;> (simp only [Rotor.mul]; ring)

/-- Claim C3: applying `transform` with `translation(offset)` adds the
offset to the point component-wise, exactly; and the composite
`compose(translation([1,0,0,0]), translation([0,2,0,0]))` sends the origin
`[0,0,0,0]` to `[1,2,0,0]`. -/
theorem translation_transform_spec (offset p : Vec4 ℝ) :
    Rotor.transform (Rotor.translation offset) p =
      ⟨p.x + offset.x, p.y + offset.y, p.z + offset.z, p.w + offset.w⟩ ∧
    Rotor.transform
        (Rotor.mul (Rotor.translation ⟨1, 0, 0, 0⟩) (Rotor.translation ⟨0, 2, 0, 0⟩))
        ⟨0, 0, 0, 0⟩ = (⟨1, 2, 0, 0⟩ : Vec4 ℝ) := by
  constructor
  · ext <;> (simp only [Rotor.transform, Rotor.translation]; ring)
  · ext <;> (simp only [Rotor.transform, Rotor.translation, Rotor.mul]; norm_num)

/-- Claim C4: `reverse` negates exactly the ten grade-2 fields and fixes the
scalar and the five grade-4 fields; hence it is an involution. -/
theorem reverse_spec (a : Rotor ℝ) :
    Rotor.reverse a =
      ⟨a.s, -a.e01, -a.e02, -a.e03, -a.e04, -a.e12, -a.e13, -a.e14, -a.e23, -a.e24,
        -a.e34, a.e0123, a.e0124, a.e0134, a.e0234, a.e1234⟩ ∧
    Rotor.reverse (Rotor.reverse a) = a := by
  refine ⟨rfl, ?_⟩
  ext <;> simp [Rotor.reverse]

/-- Claim C5: each of the six coordinate-plane rotation constructors returns
the Motor with `s = cos(θ/2)`, the plane's bivector field `sin(θ/2)`, and
every other field `0`. -/
theorem rotation_in_plane_spec (θ : ℝ) :
    Rotor.rotation_xy θ =
      ⟨Real.cos (θ / 2), 0, 0, 0, 0, Real.sin (θ / 2), 0, 0, 0, 0, 0, 0, 0, 0, 0, 0⟩ ∧
    Rotor.rotation_xz θ =
      ⟨Real.cos (θ / 2), 0, 0, 0, 0, 0, Real.sin (θ / 2), 0, 0, 0, 0, 0, 0, 0, 0, 0⟩ ∧
    Rotor.rotation_xw θ =
      ⟨Real.cos (θ / 2), 0, 0, 0, 0, 0, 0, Real.sin (θ / 2), 0, 0, 0, 0, 0, 0, 0, 0⟩ ∧
    Rotor.rotation_yz θ =
      ⟨Real.cos (θ / 2), 0, 0, 0, 0, 0, 0, 0, Real.sin (θ / 2), 0, 0, 0, 0, 0, 0, 0⟩ ∧
    Rotor.rotation_yw θ =
      ⟨Real.cos (θ / 2), 0, 0, 0, 0, 0, 0, 0, 0, Real.sin (θ / 2), 0, 0, 0, 0, 0, 0⟩ ∧
    Rotor.rotation_zw θ =
      ⟨Real.cos (θ / 2), 0, 0, 0, 0, 0, 0, 0, 0, 0, Real.sin (θ / 2), 0, 0, 0, 0, 0⟩ := by
  refine ⟨?_, ?_, ?_, ?_, ?_, ?_⟩ <;>
    (ext <;>
      simp only [Rotor.rotation_xy, Rotor.rotation_xz, Rotor.rotation_xw, Rotor.rotation_yz,
        Rotor.rotation_yw, Rotor.rotation_zw, mul_one_div])

/-- Claim C6: `transform_direction` of any pure translation fixes every
direction exactly, and its result depends only on the eight rotational
fields `s, e12..e34, e1234` (two Motors agreeing there act identically on
every direction). -/
theorem transform_direction_spec (a b : Rotor ℝ) (offset n : Vec4 ℝ)
    (hagree : a.s = b.s ∧ a.e12 = b.e12 ∧ a.e13 = b.e13 ∧ a.e14 = b.e14 ∧
      a.e23 = b.e23 ∧ a.e24 = b.e24 ∧ a.e34 = b.e34 ∧ a.e1234 = b.e1234) :
    Rotor.transform_direction (Rotor.translation offset) n = n ∧
    Rotor.transform_direction a n = Rotor.transform_direction b n := by
  obtain ⟨h1, h2, h3, h4, h5, h6, h7, h8⟩ := hagree
  constructor
  · ext <;> (simp only [Rotor.transform_direction, Rotor.translation]; ring)
  · ext <;> simp only [Rotor.transform_direction, h1, h2, h3, h4, h5, h6, h7, h8]

/-- Witness for C6 at `a = translation (1,2,3,4)`, `b = IDENTITY`,
`offset = (5,6,7,8)`, `n = (9,10,11,12)`. -/
theorem transform_direction_spec_witness :
    ((Rotor.translation (⟨1, 2, 3, 4⟩ : Vec4 ℝ)).s = (Rotor.IDENTITY : Rotor ℝ).s ∧
      (Rotor.translation (⟨1, 2, 3, 4⟩ : Vec4 ℝ)).e12 = (Rotor.IDENTITY : Rotor ℝ).e12 ∧
      (Rotor.translation (⟨1, 2, 3, 4⟩ : Vec4 ℝ)).e13 = (Rotor.IDENTITY : Rotor ℝ).e13 ∧
      (Rotor.translation (⟨1, 2, 3, 4⟩ : Vec4 ℝ)).e14 = (Rotor.IDENTITY : Rotor ℝ).e14 ∧
      (Rotor.translation (⟨1, 2, 3, 4⟩ : Vec4 ℝ)).e23 = (Rotor.IDENTITY : Rotor ℝ).e23 ∧
      (Rotor.translation (⟨1, 2, 3, 4⟩ : Vec4 ℝ)).e24 = (Rotor.IDENTITY : Rotor ℝ).e24 ∧
      (Rotor.translation (⟨1, 2, 3, 4⟩ : Vec4 ℝ)).e34 = (Rotor.IDENTITY : Rotor ℝ).e34 ∧
      (Rotor.translation (⟨1, 2, 3, 4⟩ : Vec4 ℝ)).e1234 = (Rotor.IDENTITY : Rotor ℝ).e1234) ∧
    (Rotor.transform_direction (Rotor.translation ⟨5, 6, 7, 8⟩) (⟨9, 10, 11, 12⟩ : Vec4 ℝ) =
        ⟨9, 10, 11, 12⟩ ∧
      Rotor.transform_direction (Rotor.translation (⟨1, 2, 3, 4⟩ : Vec4 ℝ)) ⟨9, 10, 11, 12⟩ =
        Rotor.transform_direction Rotor.IDENTITY ⟨9, 10, 11, 12⟩) :=
  ⟨⟨rfl, rfl, rfl, rfl, rfl, rfl, rfl, rfl⟩,
    transform_direction_spec (Rotor.translation ⟨1, 2, 3, 4⟩) Rotor.IDENTITY ⟨5, 6, 7, 8⟩
      ⟨9, 10, 11, 12⟩ ⟨rfl, rfl, rfl, rfl, rfl, rfl, rfl, rfl⟩⟩

/-- Counterexample to claim C7: the Motor `u = (3/5)e12 + (4/5)e34` has
`magnitude_squared u = 1`, yet `magnitude_squared (compose u u) = 1201/625`,
far outside any floating-point tolerance of `1`. -/
theorem unit_magnitude_cex :
    Rotor.magnitude_squared
        (⟨0, 0, 0, 0, 0, 3/5, 0, 0, 0, 0, 4/5, 0, 0, 0, 0, 0⟩ : Rotor ℝ) = 1 ∧
    Rotor.magnitude_squared
        (Rotor.mul (⟨0, 0, 0, 0, 0, 3/5, 0, 0, 0, 0, 4/5, 0, 0, 0, 0, 0⟩ : Rotor ℝ)
          ⟨0, 0, 0, 0, 0, 3/5, 0, 0, 0, 0, 4/5, 0, 0, 0, 0, 0⟩) = 1201/625 := by
  constructor <;>
    (simp only [Rotor.magnitude_squared, Rotor.mul, Rotor.reverse]; norm_num)

/-- Claim C7 as amended: if `a` and `b` each have `magnitude_squared = 1`
and additionally a vanishing `e1234` component of `compose(reverse(·), ·)`
(which every §4.4 constructor output satisfies), then
`magnitude_squared (compose a b) = 1` exactly. -/
theorem unit_magnitude_amended (a b : Rotor ℝ)
    (ha : Rotor.magnitude_squared a = 1) (hb : Rotor.magnitude_squared b = 1)
    (ha4 : (Rotor.mul (Rotor.reverse a) a).e1234 = 0)
    (hb4 : (Rotor.mul (Rotor.reverse b) b).e1234 = 0) :
    Rotor.magnitude_squared (Rotor.mul a b) = 1 := by
  have key : Rotor.magnitude_squared (Rotor.mul a b) =
      Rotor.magnitude_squared a * Rotor.magnitude_squared b +
        (Rotor.mul (Rotor.reverse a) a).e1234 * (Rotor.mul (Rotor.reverse b) b).e1234 := by
    simp only [Rotor.magnitude_squared, Rotor.mul, Rotor.reverse]
    ring
  rw [key, ha, hb, ha4, hb4]
  ring

/-- Witness for the amended C7 at `a = 3/5 + (4/5)e12`, `b = 3/5 + (4/5)e34`. -/
theorem unit_magnitude_amended_witness :
    (Rotor.magnitude_squared (⟨3/5, 0, 0, 0, 0, 4/5, 0, 0, 0, 0, 0, 0, 0, 0, 0, 0⟩ : Rotor ℝ) = 1 ∧
      Rotor.magnitude_squared (⟨3/5, 0, 0, 0, 0, 0, 0, 0, 0, 0, 4/5, 0, 0, 0, 0, 0⟩ : Rotor ℝ) = 1 ∧
      (Rotor.mul
          (Rotor.reverse (⟨3/5, 0, 0, 0, 0, 4/5, 0, 0, 0, 0, 0, 0, 0, 0, 0, 0⟩ : Rotor ℝ))
          ⟨3/5, 0, 0, 0, 0, 4/5, 0, 0, 0, 0, 0, 0, 0, 0, 0, 0⟩).e1234 = 0 ∧
      (Rotor.mul
          (Rotor.reverse (⟨3/5, 0, 0, 0, 0, 0, 0, 0, 0, 0, 4/5, 0, 0, 0, 0, 0⟩ : Rotor ℝ))
          ⟨3/5, 0, 0, 0, 0, 0, 0, 0, 0, 0, 4/5, 0, 0, 0, 0, 0⟩).e1234 = 0) ∧
    Rotor.magnitude_squared
      (Rotor.mul (⟨3/5, 0, 0, 0, 0, 4/5, 0, 0, 0, 0, 0, 0, 0, 0, 0, 0⟩ : Rotor ℝ)
        ⟨3/5, 0, 0, 0, 0, 0, 0, 0, 0, 0, 4/5, 0, 0, 0, 0, 0⟩) = 1 := by
  have h1 : Rotor.magnitude_squared
      (⟨3/5, 0, 0, 0, 0, 4/5, 0, 0, 0, 0, 0, 0, 0, 0, 0, 0⟩ : Rotor ℝ) = 1 := by
    simp only [Rotor.magnitude_squared, Rotor.mul, Rotor.reverse]; norm_num
  have h2 : Rotor.magnitude_squared
      (⟨3/5, 0, 0, 0, 0, 0, 0, 0, 0, 0, 4/5, 0, 0, 0, 0, 0⟩ : Rotor ℝ) = 1 := by
    simp only [Rotor.magnitude_squared, Rotor.mul, Rotor.reverse]; norm_num
  have h3 : (Rotor.mul
      (Rotor.reverse (⟨3/5, 0, 0, 0, 0, 4/5, 0, 0, 0, 0, 0, 0, 0, 0, 0, 0⟩ : Rotor ℝ))
      ⟨3/5, 0, 0, 0, 0, 4/5, 0, 0, 0, 0, 0, 0, 0, 0, 0, 0⟩).e1234 = 0 := by
    simp only [Rotor.mul, Rotor.reverse]; norm_num
  have h4 : (Rotor.mul
      (Rotor.reverse (⟨3/5, 0, 0, 0, 0, 0, 0, 0, 0, 0, 4/5, 0, 0, 0, 0, 0⟩ : Rotor ℝ))
      ⟨3/5, 0, 0, 0, 0, 0, 0, 0, 0, 0, 4/5, 0, 0, 0, 0, 0⟩).e1234 = 0 := by
    simp only [Rotor.mul, Rotor.reverse]; norm_num
  exact ⟨⟨h1, h2, h3, h4⟩, unit_magnitude_amended _ _ h1 h2 h3 h4⟩

/-- Counterexample to claim C8: for `u = (3/5)e12 + (4/5)e34`, which has
`magnitude_squared u = 1`, the round trip
`transform_point(compose(u, reverse(u)), [1,0,0,0])` yields
`[-527/625, 0, 0, 0]`, not `[1,0,0,0]`. -/
theorem round_trip_cex :
    Rotor.magnitude_squared
        (⟨0, 0, 0, 0, 0, 3/5, 0, 0, 0, 0, 4/5, 0, 0, 0, 0, 0⟩ : Rotor ℝ) = 1 ∧
    Rotor.transform
        (Rotor.mul (⟨0, 0, 0, 0, 0, 3/5, 0, 0, 0, 0, 4/5, 0, 0, 0, 0, 0⟩ : Rotor ℝ)
          (Rotor.reverse ⟨0, 0, 0, 0, 0, 3/5, 0, 0, 0, 0, 4/5, 0, 0, 0, 0, 0⟩))
        ⟨1, 0, 0, 0⟩ = (⟨-527/625, 0, 0, 0⟩ : Vec4 ℝ) ∧
    (-527/625 : ℝ) ≠ 1 := by
  refine ⟨?_, ?_, by norm_num⟩
  · simp only [Rotor.magnitude_squared, Rotor.mul, Rotor.reverse]; norm_num
  · ext <;> (simp only [Rotor.transform, Rotor.mul, Rotor.reverse]; norm_num)

/-- Rotors whose scalar is `1` and whose ten grade-2 and `e1234` fields all
vanish act as the identity on every point, whatever their remaining grade-4
fields are. -/
theorem transform_of_unit_components (c : Rotor ℝ) (p : Vec4 ℝ)
    (hs : c.s = 1) (h01 : c.e01 = 0) (h02 : c.e02 = 0) (h03 : c.e03 = 0) (h04 : c.e04 = 0)
    (h12 : c.e12 = 0) (h13 : c.e13 = 0) (h14 : c.e14 = 0) (h23 : c.e23 = 0)
    (h24 : c.e24 = 0) (h34 : c.e34 = 0) (hq : c.e1234 = 0) :
    Rotor.transform c p = p := by
  ext <;>
    (simp only [Rotor.transform, hs, h01, h02, h03, h04, h12, h13, h14, h23, h24, h34, hq]
     ring)

/-- Claim C8 as amended: if the unit Motor `a` additionally has a vanishing
`e1234` component of `compose(reverse(a), a)` (true of every motor built
from the §4.4 constructors), then
`transform_point(compose(a, reverse(a)), p) = p` exactly. -/
theorem round_trip_amended (a : Rotor ℝ) (p : Vec4 ℝ)
    (ha : Rotor.magnitude_squared a = 1)
    (ha4 : (Rotor.mul (Rotor.reverse a) a).e1234 = 0) :
    Rotor.transform (Rotor.mul a (Rotor.reverse a)) p = p := by
  have hs : (Rotor.mul a (Rotor.reverse a)).s = 1 := by
    have h : (Rotor.mul a (Rotor.reverse a)).s = Rotor.magnitude_squared a := by
      simp only [Rotor.magnitude_squared, Rotor.mul, Rotor.reverse]; ring
    rw [h, ha]
  have hq : (Rotor.mul a (Rotor.reverse a)).e1234 = 0 := by
    have h : (Rotor.mul a (Rotor.reverse a)).e1234 =
        (Rotor.mul (Rotor.reverse a) a).e1234 := by
      simp only [Rotor.mul, Rotor.reverse]; ring
    rw [h, ha4]
  apply transform_of_unit_components _ _ hs _ _ _ _ _ _ _ _ _ _ hq <;>
    (simp only [Rotor.mul, Rotor.reverse]; ring)

/-- Witness for the amended C8 at `a = 3/5 + (4/5)e12`, `p = (1,2,3,4)`. -/
theorem round_trip_amended_witness :
    (Rotor.magnitude_squared (⟨3/5, 0, 0, 0, 0, 4/5, 0, 0, 0, 0, 0, 0, 0, 0, 0, 0⟩ : Rotor ℝ) = 1 ∧
      (Rotor.mul
          (Rotor.reverse (⟨3/5, 0, 0, 0, 0, 4/5, 0, 0, 0, 0, 0, 0, 0, 0, 0, 0⟩ : Rotor ℝ))
          ⟨3/5, 0, 0, 0, 0, 4/5, 0, 0, 0, 0, 0, 0, 0, 0, 0, 0⟩).e1234 = 0) ∧
    Rotor.transform
      (Rotor.mul (⟨3/5, 0, 0, 0, 0, 4/5, 0, 0, 0, 0, 0, 0, 0, 0, 0, 0⟩ : Rotor ℝ)
        (Rotor.reverse ⟨3/5, 0, 0, 0, 0, 4/5, 0, 0, 0, 0, 0, 0, 0, 0, 0, 0⟩))
      ⟨1, 2, 3, 4⟩ = (⟨1, 2, 3, 4⟩ : Vec4 ℝ) := by
  have h1 : Rotor.magnitude_squared
      (⟨3/5, 0, 0, 0, 0, 4/5, 0, 0, 0, 0, 0, 0, 0, 0, 0, 0⟩ : Rotor ℝ) = 1 := by
    simp only [Rotor.magnitude_squared, Rotor.mul, Rotor.reverse]; norm_num
  have h2 : (Rotor.mul
      (Rotor.reverse (⟨3/5, 0, 0, 0, 0, 4/5, 0, 0, 0, 0, 0, 0, 0, 0, 0, 0⟩ : Rotor ℝ))
      ⟨3/5, 0, 0, 0, 0, 4/5, 0, 0, 0, 0, 0, 0, 0, 0, 0, 0⟩).e1234 = 0 := by
    simp only [Rotor.mul, Rotor.reverse]; norm_num
  exact ⟨⟨h1, h2⟩, round_trip_amended _ _ h1 h2⟩

/-- Claim C9: `Point::transform` is `todo!()`: for every Point and Motor the
operation produces no Point value, surfacing the unimplemented-path failure. -/
theorem point_transform_unimplemented (p : Point ℝ) (r : Rotor ℝ) :
    Point.transform p r = none := rfl

/-- Claim C10: `magnitude_squared` equals the sum of squares of the eight
rotational fields exactly, hence depends only on those fields, is
nonnegative, and equals `1` on every pure translation. -/
theorem magnitude_squared_spec (a b : Rotor ℝ) (offset : Vec4 ℝ)
    (hagree : a.s = b.s ∧ a.e12 = b.e12 ∧ a.e13 = b.e13 ∧ a.e14 = b.e14 ∧
      a.e23 = b.e23 ∧ a.e24 = b.e24 ∧ a.e34 = b.e34 ∧ a.e1234 = b.e1234) :
    Rotor.magnitude_squared a =
      a.s ^ 2 + a.e12 ^ 2 + a.e13 ^ 2 + a.e14 ^ 2 + a.e23 ^ 2 + a.e24 ^ 2 + a.e34 ^ 2 +
        a.e1234 ^ 2 ∧
    Rotor.magnitude_squared a = Rotor.magnitude_squared b ∧
    0 ≤ Rotor.magnitude_squared a ∧
    Rotor.magnitude_squared (Rotor.translation offset) = 1 := by
  obtain ⟨h1, h2, h3, h4, h5, h6, h7, h8⟩ := hagree
  have formula : ∀ x : Rotor ℝ, Rotor.magnitude_squared x =
      x.s ^ 2 + x.e12 ^ 2 + x.e13 ^ 2 + x.e14 ^ 2 + x.e23 ^ 2 + x.e24 ^ 2 + x.e34 ^ 2 +
        x.e1234 ^ 2 := by
    intro x
    simp only [Rotor.magnitude_squared, Rotor.mul, Rotor.reverse]
    ring
  refine ⟨formula a, ?_, ?_, ?_⟩
  · rw [formula a, formula b, h1, h2, h3, h4, h5, h6, h7, h8]
  · rw [formula a]
    positivity
  · rw [formula (Rotor.translation offset)]
    simp only [Rotor.translation]
    norm_num

/-- Witness for C10 at `a = translation (1,2,3,4)`, `b = IDENTITY`,
`offset = (5,6,7,8)`. -/
theorem magnitude_squared_spec_witness :
    ((Rotor.translation (⟨1, 2, 3, 4⟩ : Vec4 ℝ)).s = (Rotor.IDENTITY : Rotor ℝ).s ∧
      (Rotor.translation (⟨1, 2, 3, 4⟩ : Vec4 ℝ)).e12 = (Rotor.IDENTITY : Rotor ℝ).e12 ∧
      (Rotor.translation (⟨1, 2, 3, 4⟩ : Vec4 ℝ)).e13 = (Rotor.IDENTITY : Rotor ℝ).e13 ∧
      (Rotor.translation (⟨1, 2, 3, 4⟩ : Vec4 ℝ)).e14 = (Rotor.IDENTITY : Rotor ℝ).e14 ∧
      (Rotor.translation (⟨1, 2, 3, 4⟩ : Vec4 ℝ)).e23 = (Rotor.IDENTITY : Rotor ℝ).e23 ∧
      (Rotor.translation (⟨1, 2, 3, 4⟩ : Vec4 ℝ)).e24 = (Rotor.IDENTITY : Rotor ℝ).e24 ∧
      (Rotor.translation (⟨1, 2, 3, 4⟩ : Vec4 ℝ)).e34 = (Rotor.IDENTITY : Rotor ℝ).e34 ∧
      (Rotor.translation (⟨1, 2, 3, 4⟩ : Vec4 ℝ)).e1234 = (Rotor.IDENTITY : Rotor ℝ).e1234) ∧
    (Rotor.magnitude_squared (Rotor.translation (⟨1, 2, 3, 4⟩ : Vec4 ℝ)) =
        (Rotor.translation (⟨1, 2, 3, 4⟩ : Vec4 ℝ)).s ^ 2 +
          (Rotor.translation (⟨1, 2, 3, 4⟩ : Vec4 ℝ)).e12 ^ 2 +
          (Rotor.translation (⟨1, 2, 3, 4⟩ : Vec4 ℝ)).e13 ^ 2 +
          (Rotor.translation (⟨1, 2, 3, 4⟩ : Vec4 ℝ)).e14 ^ 2 +
          (Rotor.translation (⟨1, 2, 3, 4⟩ : Vec4 ℝ)).e23 ^ 2 +
          (Rotor.translation (⟨1, 2, 3, 4⟩ : Vec4 ℝ)).e24 ^ 2 +
          (Rotor.translation (⟨1, 2, 3, 4⟩ : Vec4 ℝ)).e34 ^ 2 +
          (Rotor.translation (⟨1, 2, 3, 4⟩ : Vec4 ℝ)).e1234 ^ 2 ∧
      Rotor.magnitude_squared (Rotor.translation (⟨1, 2, 3, 4⟩ : Vec4 ℝ)) =
        Rotor.magnitude_squared (Rotor.IDENTITY : Rotor ℝ) ∧
      0 ≤ Rotor.magnitude_squared (Rotor.translation (⟨1, 2, 3, 4⟩ : Vec4 ℝ)) ∧
      Rotor.magnitude_squared (Rotor.translation (⟨5, 6, 7, 8⟩ : Vec4 ℝ)) = 1) :=
  ⟨⟨rfl, rfl, rfl, rfl, rfl, rfl, rfl, rfl⟩,
    magnitude_squared_spec (Rotor.translation ⟨1, 2, 3, 4⟩) Rotor.IDENTITY ⟨5, 6, 7, 8⟩
      ⟨rfl, rfl, rfl, rfl, rfl, rfl, rfl, rfl⟩⟩

end Tesseract
